import Mathlib

/-!
Verification of the Nexaa multimodal emotion-fusion service.

The definitions below are shallow embeddings of the Python source under
`ml-service/`: emotions are a seven-constructor inductive type, Python
floats become rationals, dictionaries become total functions or lists,
and the bounded `queue.Queue` face-history buffer becomes a list with an
explicit eviction step.  Each definition is named after the Python
function it embeds.
-/

namespace Nexaa

/-- The seven emotion labels used throughout the service
(`emotion_labels = ['happy', 'sad', 'angry', 'fear', 'surprise',
'disgust', 'neutral']`). -/
inductive Emotion
  | happy
  | sad
  | angry
  | fear
  | surprise
  | disgust
  | neutral
deriving DecidableEq, Repr, Fintype

open Emotion

/-- The string name of an emotion label as it appears in the Python code. -/
def emotionName : Emotion → String
  | happy => "happy"
  | sad => "sad"
  | angry => "angry"
  | fear => "fear"
  | surprise => "surprise"
  | disgust => "disgust"
  | neutral => "neutral"

/-- The `emotion_compatibility` matrix of
`advanced_face_emotion_model.validate_emotion_authenticity`
(first index: face emotion, second index: text emotion). -/
def emotionCompatibility : Emotion → Emotion → ℚ
  | happy, happy => 1.0
  | happy, surprise => 0.7
  | happy, neutral => 0.5
  | happy, sad => 0.1
  | happy, angry => 0.0
  | happy, fear => 0.2
  | happy, disgust => 0.1
  | sad, sad => 1.0
  | sad, neutral => 0.6
  | sad, fear => 0.4
  | sad, happy => 0.0
  | sad, angry => 0.3
  | sad, surprise => 0.2
  | sad, disgust => 0.3
  | angry, angry => 1.0
  | angry, disgust => 0.6
  | angry, sad => 0.4
  | angry, neutral => 0.3
  | angry, happy => 0.0
  | angry, fear => 0.2
  | angry, surprise => 0.1
  | fear, fear => 1.0
  | fear, surprise => 0.6
  | fear, sad => 0.5
  | fear, neutral => 0.4
  | fear, angry => 0.2
  | fear, happy => 0.1
  | fear, disgust => 0.3
  | surprise, surprise => 1.0
  | surprise, happy => 0.6
  | surprise, fear => 0.5
  | surprise, neutral => 0.4
  | surprise, angry => 0.2
  | surprise, sad => 0.3
  | surprise, disgust => 0.2
  | disgust, disgust => 1.0
  | disgust, angry => 0.6
  | disgust, sad => 0.4
  | disgust, fear => 0.3
  | disgust, neutral => 0.3
  | disgust, surprise => 0.2
  | disgust, happy => 0.1
  | neutral, neutral => 1.0
  | neutral, happy => 0.4
  | neutral, sad => 0.4
  | neutral, surprise => 0.3
  | neutral, angry => 0.3
  | neutral, fear => 0.3
  | neutral, disgust => 0.3

/-- Result dictionary of `validate_emotion_authenticity`. -/
structure ValidationResult where
  final_emotion : Emotion
  final_confidence : ℚ
  is_authentic : Bool
  compatibility_score : ℚ
  explanation : String
  face_weight : ℚ
  text_weight : ℚ
deriving DecidableEq, Repr

/-- Embedding of
`AdvancedFaceEmotionModel.validate_emotion_authenticity` in
`advanced_face_emotion_model.py`: the three-tier face-priority fusion
of a face estimate and a text estimate. -/
def validateEmotionAuthenticity (faceEmotion : Emotion) (faceConfidence : ℚ)
    (textEmotion : Emotion) (textConfidence : ℚ) : ValidationResult :=
  let faceWeight : ℚ := 0.8
  let textWeight : ℚ := 0.2
  let compatibility := emotionCompatibility faceEmotion textEmotion
  if 0.7 ≤ compatibility then
    { final_emotion := faceEmotion
      final_confidence :=
        faceConfidence * faceWeight + textConfidence * textWeight * compatibility
      is_authentic := true
      compatibility_score := compatibility
      explanation := "Face and text emotions are compatible. Face shows "
        ++ emotionName faceEmotion ++ ", text suggests "
        ++ emotionName textEmotion ++ "."
      face_weight := faceWeight
      text_weight := textWeight }
  else if 0.4 ≤ compatibility then
    { final_emotion :=
        if textConfidence < faceConfidence then faceEmotion else textEmotion
      final_confidence := max faceConfidence textConfidence * 0.8
      is_authentic := true
      compatibility_score := compatibility
      explanation := "Moderate compatibility between face ("
        ++ emotionName faceEmotion ++ ") and text ("
        ++ emotionName textEmotion ++ "). Prioritizing stronger signal."
      face_weight := faceWeight
      text_weight := textWeight }
  else
    { final_emotion := faceEmotion
      final_confidence := faceConfidence * 0.7
      is_authentic := false
      compatibility_score := compatibility
      explanation := "POTENTIAL FAKE: Face shows "
        ++ emotionName faceEmotion ++ " but text suggests "
        ++ emotionName textEmotion ++ ". Facial expression has priority."
      face_weight := faceWeight
      text_weight := textWeight }

/-! ### Valence-based fallback consistency score
(`ContinuousEmotionRecognizer._calculate_consistency_score`) -/

/-- The valence of an emotion, following the `positive_emotions` /
`negative_emotions` sets of `_calculate_consistency_score`. -/
inductive Valence
  | positive
  | negative
  | neutral
deriving DecidableEq, Repr

/-- `positive_emotions = {'happy', 'surprise'}`. -/
def positiveEmotions : List Emotion := [happy, surprise]

/-- `negative_emotions = {'sad', 'angry', 'fear', 'disgust'}`. -/
def negativeEmotions : List Emotion := [sad, angry, fear, disgust]

/-- The valence classification used inside `_calculate_consistency_score`. -/
def emotionValence (e : Emotion) : Valence :=
  if e ∈ positiveEmotions then Valence.positive
  else if e ∈ negativeEmotions then Valence.negative
  else Valence.neutral

/-- Embedding of `ContinuousEmotionRecognizer._calculate_consistency_score`
in `continuous_emotion_recognition.py`.  The confidence arguments are
accepted (as in the source) but do not influence the score. -/
def calculateConsistencyScore (faceEmotion textEmotion : Emotion)
    (faceConfidence textConfidence : ℚ) : ℚ :=
  let _ := faceConfidence
  let _ := textConfidence
  if faceEmotion = textEmotion then 1.0
  else
    let faceValence := emotionValence faceEmotion
    let textValence := emotionValence textEmotion
    if faceValence = textValence ∧ faceValence ≠ Valence.neutral then 0.7
    else if faceValence = Valence.neutral ∨ textValence = Valence.neutral then 0.5
    else 0.2

/-! ### Face-emotion history buffer and consensus
(`ContinuousEmotionRecognizer.face_emotion_history`,
`_face_tracking_loop`, `get_face_emotion_consensus`) -/

/-- Embedding of the `EmotionResult` dataclass restricted to the fields
the history buffer and fusion logic read (`emotion`, `confidence`,
`timestamp`); the probability map and modality tag of the source
dataclass are never consulted by the functions verified here.
Timestamps are rationals (seconds). -/
structure EmotionResult where
  emotion : Emotion
  confidence : ℚ
  timestamp : ℚ
deriving DecidableEq, Repr

/-- `face_emotion_history = queue.Queue(maxsize=10)`. -/
def maxHistory : ℕ := 10

/-- Embedding of the buffer-insertion step of `_face_tracking_loop`:
if the bounded queue is not full the new estimate is enqueued, otherwise
the oldest entry is dequeued first (FIFO eviction). -/
def recordFace (buffer : List EmotionResult) (x : EmotionResult) :
    List EmotionResult :=
  if buffer.length < maxHistory then buffer ++ [x]
  else buffer.drop 1 ++ [x]

/-- The recency filter of `get_face_emotion_consensus`:
`cutoff_time = now - 10 seconds`, keep entries with
`timestamp > cutoff_time`. -/
def recentEntries (now : ℚ) (buffer : List EmotionResult) :
    List EmotionResult :=
  buffer.filter (fun e => decide (now - 10 < e.timestamp))

/-- The keys of the Python `emotion_counts` dict in insertion order,
i.e. the distinct emotions of the list in order of first occurrence. -/
def emotionKeys (l : List EmotionResult) : List Emotion :=
  l.foldl (fun ks e => if e.emotion ∈ ks then ks else ks ++ [e.emotion]) []

/-- Number of entries of the list carrying a given emotion
(the length of `emotion_counts[e]`). -/
def countEmotion (e : Emotion) (l : List EmotionResult) : ℕ :=
  (l.filter (fun x => decide (x.emotion = e))).length

/-- Python's `max(emotion_counts.keys(), key=lambda x: len(emotion_counts[x]))`:
scan the keys in insertion order keeping the current best, replacing it only
on a strictly larger count. Returns `none` on an empty key list. -/
def pickConsensusEmotion (l : List EmotionResult) : Option Emotion :=
  match emotionKeys l with
  | [] => none
  | k :: ks =>
      some (ks.foldl (fun best e =>
        if countEmotion best l < countEmotion e l then e else best) k)

/-- Result dictionary of `get_face_emotion_consensus` (the
`emotion_distribution` debug field is omitted). -/
structure ConsensusResult where
  emotion : Emotion
  confidence : ℚ
  stability_score : ℚ
  sample_count : ℕ
deriving DecidableEq, Repr

/-- Embedding of `ContinuousEmotionRecognizer.get_face_emotion_consensus`.
The queue drain/restore is modelled by passing the buffer contents as a
list, and `datetime.now()` by the explicit `now` argument. -/
def getFaceEmotionConsensus (now : ℚ) (buffer : List EmotionResult) :
    Option ConsensusResult :=
  if buffer = [] then none
  else
    match pickConsensusEmotion (recentEntries now buffer) with
    | none => none
    | some best =>
        some { emotion := best
               confidence :=
                 (((recentEntries now buffer).filter
                     (fun x => decide (x.emotion = best))).map
                   (fun x => x.confidence)).sum /
                 ((recentEntries now buffer).filter
                   (fun x => decide (x.emotion = best))).length
               stability_score :=
                 (((recentEntries now buffer).filter
                     (fun x => decide (x.emotion = best))).length : ℚ) /
                 (recentEntries now buffer).length
               sample_count := (recentEntries now buffer).length }

/-! ### Multimodal combination
(`ContinuousEmotionRecognizer._combine_and_validate_emotions`,
`_determine_final_emotion`) -/

/-- Rendering of Python's `{q:.1%}` format specifier for the confidence
values interpolated into explanations (percent with one decimal digit;
rounding is modelled with `round`). -/
def formatPercent1 (q : ℚ) : String :=
  let tenths : ℤ := round (q * 1000)
  let sign := if tenths < 0 then "-" else ""
  let n := tenths.natAbs
  sign ++ toString (n / 10) ++ "." ++ toString (n % 10) ++ "%"

/-- Embedding of the `MultimodalResult` dataclass. -/
structure MultimodalResult where
  final_emotion : Emotion
  final_confidence : ℚ
  face_emotion : Option EmotionResult
  text_emotion : Option EmotionResult
  audio_emotion : Option EmotionResult
  consistency_score : ℚ
  is_authentic : Bool
  explanation : String
deriving DecidableEq, Repr

/-- `self.consistency_threshold = 0.6`. -/
def consistencyThreshold : ℚ := 0.6

/-- Embedding of `ContinuousEmotionRecognizer._determine_final_emotion`.
`useAdvanced` records whether `self.face_recognizer` carries
`validate_emotion_authenticity` (the advanced face model); when it does,
validation is delegated to `validateEmotionAuthenticity`, otherwise the
inline face-priority fallback runs.  Returns
`(final_emotion, final_confidence, is_authentic, explanation)`. -/
def determineFinalEmotion (useAdvanced : Bool)
    (faceEmotion textEmotion : EmotionResult)
    (faceConsensus : Option ConsensusResult) (consistencyScore : ℚ) :
    Emotion × ℚ × Bool × String :=
  let (faceResultEmotion, faceConf) :=
    match faceConsensus with
    | some c => (c.emotion, c.confidence * c.stability_score)
    | none => (faceEmotion.emotion, faceEmotion.confidence)
  let textConf := textEmotion.confidence
  if useAdvanced then
    let v := validateEmotionAuthenticity faceResultEmotion faceConf
      textEmotion.emotion textConf
    (v.final_emotion, v.final_confidence, v.is_authentic, v.explanation)
  else
    let faceWeight : ℚ := 0.8
    let textWeight : ℚ := 0.2
    if consistencyThreshold ≤ consistencyScore then
      if faceResultEmotion = textEmotion.emotion then
        (faceResultEmotion, faceConf * faceWeight + textConf * textWeight, true,
          "AUTHENTIC: Face and text both indicate "
            ++ emotionName faceResultEmotion)
      else
        (faceResultEmotion,
          faceConf * faceWeight + textConf * textWeight * 0.7, true,
          "Compatible emotions: Face shows " ++ emotionName faceResultEmotion
            ++ ", text shows " ++ emotionName textEmotion.emotion
            ++ ". Prioritizing facial expression.")
    else
      (faceResultEmotion, faceConf * 0.8, false,
        "POTENTIAL FAKE: Face shows " ++ emotionName faceResultEmotion
          ++ " but text suggests " ++ emotionName textEmotion.emotion
          ++ ". Facial expression takes priority over text.")

/-- Embedding of `ContinuousEmotionRecognizer._combine_and_validate_emotions`.
The call `self.get_face_emotion_consensus()` reads live queue state; it is
passed in as `faceConsensus`. -/
def combineAndValidateEmotions (useAdvanced : Bool)
    (faceConsensus : Option ConsensusResult)
    (faceEmotion textEmotion : Option EmotionResult) : MultimodalResult :=
  match faceEmotion, textEmotion with
  | none, none =>
      { final_emotion := neutral
        final_confidence := 0.5
        face_emotion := none
        text_emotion := none
        audio_emotion := none
        consistency_score := 0.0
        is_authentic := false
        explanation := "No face or text data available" }
  | some f, none =>
      { final_emotion := f.emotion
        final_confidence := f.confidence
        face_emotion := some f
        text_emotion := none
        audio_emotion := none
        consistency_score := 1.0
        is_authentic := decide (0.6 < f.confidence)
        explanation := "Face-only detection: " ++ emotionName f.emotion
          ++ " with " ++ formatPercent1 f.confidence ++ " confidence" }
  | none, some t =>
      { final_emotion := t.emotion
        final_confidence := t.confidence * 0.8
        face_emotion := none
        text_emotion := some t
        audio_emotion := none
        consistency_score := 0.5
        is_authentic := decide (0.7 < t.confidence ∧ t.emotion ≠ neutral)
        explanation := "Text-only detection: " ++ emotionName t.emotion
          ++ ". Face verification recommended for authenticity." }
  | some f, some t =>
      let consistencyScore :=
        match faceConsensus with
        | some c => calculateConsistencyScore c.emotion t.emotion
            c.confidence t.confidence
        | none => calculateConsistencyScore f.emotion t.emotion
            f.confidence t.confidence
      let r := determineFinalEmotion useAdvanced f t faceConsensus
        consistencyScore
      { final_emotion := r.1
        final_confidence := r.2.1
        face_emotion := some f
        text_emotion := some t
        audio_emotion := none
        consistency_score := consistencyScore
        is_authentic := r.2.2.1
        explanation := r.2.2.2 }

/-! ### Face-priority multimodal fusion
(`NexaModelV2._intelligent_multimodal_fusion` in `nexamodel_v2.py`) -/

/-- One per-modality result dictionary as consumed by
`_intelligent_multimodal_fusion` (`predicted_emotion`, `confidence`,
`all_probabilities`, and the `model_accuracy` value used — the source
reads it with `result.get('model_accuracy', 0.7)`). -/
structure FusionInput where
  predicted_emotion : Emotion
  confidence : ℚ
  all_probabilities : Emotion → ℚ
  model_accuracy : ℚ

/-- Output fields of `_intelligent_multimodal_fusion` relevant to
verification (`predicted_emotion`, `confidence`, `all_probabilities`). -/
structure FusionOutput where
  predicted_emotion : Emotion
  confidence : ℚ
  all_probabilities : Emotion → ℚ

/-- `self.emotion_labels` of `nexamodel_v2.py`, in source order
(also the key-insertion order of `combined_probs`). -/
def emotionLabels : List Emotion :=
  [happy, sad, angry, fear, surprise, disgust, neutral]

/-- Python's `max(combined_probs, key=combined_probs.get)`: scan the
labels in insertion order and replace the current best only on a
strictly larger value. -/
def argmaxEmotion (f : Emotion → ℚ) : Emotion :=
  [sad, angry, fear, surprise, disgust, neutral].foldl
    (fun best e => if f best < f e then e else best) happy

/-- The `modality_weights` of `_intelligent_multimodal_fusion` as
`(face, text, audio)`: normally `(0.65, 0.25, 0.10)`, raised to
`(0.80, 0.15, 0.05)` when face and text are both present, disagree, and
the face confidence exceeds 0.5 (the anti-fake conflict rule). -/
def fusionWeights (face text : Option FusionInput) : ℚ × ℚ × ℚ :=
  match face, text with
  | some f, some t =>
      if f.predicted_emotion ≠ t.predicted_emotion ∧ 0.5 < f.confidence then
        (0.80, 0.15, 0.05)
      else (0.65, 0.25, 0.10)
  | _, _ => (0.65, 0.25, 0.10)

/-- The present modalities paired with their (pre-accuracy) weights, in
the face, text, audio order of the results dictionary. -/
def fusionEntries (face text audio : Option FusionInput) :
    List (ℚ × FusionInput) :=
  let w := fusionWeights face text
  (match face with | some f => [(w.1, f)] | none => []) ++
  (match text with | some t => [(w.2.1, t)] | none => []) ++
  (match audio with | some a => [(w.2.2, a)] | none => [])

/-- `total_weight`: the sum of the accuracy-adjusted weights
`weight * model_accuracy` over the present modalities. -/
def fusionTotalWeight (face text audio : Option FusionInput) : ℚ :=
  ((fusionEntries face text audio).map (fun p => p.1 * p.2.model_accuracy)).sum

/-- `weighted_confidence` before normalization: the sum of
`confidence * adjusted_weight` over the present modalities. -/
def fusionRawConfidence (face text audio : Option FusionInput) : ℚ :=
  ((fusionEntries face text audio).map
    (fun p => p.2.confidence * (p.1 * p.2.model_accuracy))).sum

/-- `combined_probs` before normalization: each emotion's probability
mass summed with the adjusted weights. -/
def fusionRawProbs (face text audio : Option FusionInput) (e : Emotion) : ℚ :=
  ((fusionEntries face text audio).map
    (fun p => p.2.all_probabilities e * (p.1 * p.2.model_accuracy))).sum

/-- `weighted_confidence` after the `if total_weight > 0` normalization. -/
def fusionWeightedConfidence (face text audio : Option FusionInput) : ℚ :=
  if 0 < fusionTotalWeight face text audio then
    fusionRawConfidence face text audio / fusionTotalWeight face text audio
  else fusionRawConfidence face text audio

/-- `combined_probs` after the `if total_weight > 0` normalization. -/
def fusionCombinedProbs (face text audio : Option FusionInput) (e : Emotion) : ℚ :=
  if 0 < fusionTotalWeight face text audio then
    fusionRawProbs face text audio e / fusionTotalWeight face text audio
  else fusionRawProbs face text audio e

/-- `confidence_boost = 1.15 if 'face' in results else 1.1`. -/
def fusionBoost (face : Option FusionInput) : ℚ :=
  if face.isSome then 1.15 else 1.1

/-- Embedding of `NexaModelV2._intelligent_multimodal_fusion`: weights
each modality by `weight * model_accuracy`, normalizes when the total
weight is positive, takes the argmax emotion, and applies the multimodal
confidence boost capped at 0.94. -/
def intelligentMultimodalFusion (face text audio : Option FusionInput) :
    FusionOutput :=
  { predicted_emotion := argmaxEmotion (fusionCombinedProbs face text audio)
    confidence :=
      min (fusionWeightedConfidence face text audio * fusionBoost face) 0.94
    all_probabilities := fusionCombinedProbs face text audio }

/-! ### Attribute shadowing in `ContinuousEmotionRecognizer`
(`__init__` line `self.stop_face_tracking = threading.Event()` versus the
method `def stop_face_tracking(self)`, and `cleanup`, which calls
`self.stop_face_tracking()`).  Python attribute lookup on an instance
consults the instance dictionary before the class dictionary, and
function class attributes are non-data descriptors, so an instance
attribute of the same name shadows the method; calling a
`threading.Event` raises `TypeError`. -/

/-- A Python attribute value: either a `threading.Event` (with its flag)
or a bound method, identified by name. -/
inductive PyAttr
  | event (isSet : Bool)
  | boundMethod (name : String)
deriving DecidableEq, Repr

/-- The class dictionary of `ContinuousEmotionRecognizer`, restricted to
the two attributes involved: the methods `stop_face_tracking` and
`cleanup`. -/
def recognizerClassAttr (name : String) : Option PyAttr :=
  if name = "stop_face_tracking" then some (PyAttr.boundMethod "stop_face_tracking")
  else if name = "cleanup" then some (PyAttr.boundMethod "cleanup")
  else none

/-- The instance dictionary after `__init__` has executed
`self.stop_face_tracking = threading.Event()` (a fresh event is not
set). -/
def recognizerInstanceAttr (name : String) : Option PyAttr :=
  if name = "stop_face_tracking" then some (PyAttr.event false) else none

/-- Python attribute lookup on a `ContinuousEmotionRecognizer` instance:
the instance dictionary wins over the class dictionary. -/
def getattrRecognizer (name : String) : Option PyAttr :=
  match recognizerInstanceAttr name with
  | some v => some v
  | none => recognizerClassAttr name

/-- Calling a Python value: bound methods are callable, a
`threading.Event` is not (`TypeError`). -/
def callPyAttr : PyAttr → Except String Unit
  | PyAttr.boundMethod _ => Except.ok ()
  | PyAttr.event _ => Except.error "TypeError: 'Event' object is not callable"

/-- The body of `ContinuousEmotionRecognizer.cleanup`: look up
`self.stop_face_tracking` and call it. -/
def runCleanup : Except String Unit :=
  match getattrRecognizer "stop_face_tracking" with
  | some v => callPyAttr v
  | none => Except.error "AttributeError"

/-! ## Helper lemmas -/

/-- Every entry of the compatibility matrix lies in `[0, 1]`. -/
lemma emotionCompatibility_bounds (a b : Emotion) :
    0 ≤ emotionCompatibility a b ∧ emotionCompatibility a b ≤ 1 := by
  cases a <;> cases b <;> norm_num [emotionCompatibility]

/-- For confidences in `[0, 1]`, `validate_emotion_authenticity` returns a
`final_confidence` in `[0, 1]` (but not in `[0, 0.95]`). -/
lemma validate_confidence_in_unit (fe te : Emotion) (fc tc : ℚ)
    (hfc0 : 0 ≤ fc) (hfc1 : fc ≤ 1) (htc0 : 0 ≤ tc) (htc1 : tc ≤ 1) :
    0 ≤ (validateEmotionAuthenticity fe fc te tc).final_confidence ∧
    (validateEmotionAuthenticity fe fc te tc).final_confidence ≤ 1 := by
  obtain ⟨hc0, hc1⟩ := emotionCompatibility_bounds fe te
  have hm0 : 0 ≤ max fc tc := le_trans hfc0 (le_max_left fc tc)
  have hm1 : max fc tc ≤ 1 := max_le hfc1 htc1
  simp only [validateEmotionAuthenticity]
  split_ifs with h1 h2 h3
  · constructor
    · show 0 ≤ fc * 0.8 + tc * 0.2 * emotionCompatibility fe te
      have h4 : 0 ≤ tc * 0.2 * emotionCompatibility fe te :=
        mul_nonneg (mul_nonneg htc0 (by norm_num)) hc0
      nlinarith
    · show fc * 0.8 + tc * 0.2 * emotionCompatibility fe te ≤ 1
      have h4 : tc * emotionCompatibility fe te ≤ 1 := mul_le_one₀ htc1 hc0 hc1
      nlinarith
  · constructor
    · show 0 ≤ max fc tc * 0.8
      nlinarith
    · show max fc tc * 0.8 ≤ 1
      nlinarith
  · constructor
    · show 0 ≤ max fc tc * 0.8
      nlinarith
    · show max fc tc * 0.8 ≤ 1
      nlinarith
  · constructor
    · show 0 ≤ fc * 0.7
      nlinarith
    · show fc * 0.7 ≤ 1
      nlinarith

/-! ## C1: confidence bound of the fusion results -/

/-- C1, counterexample: at face = (happy, 1.0), text = (happy, 1.0) the
validation path returns `final_confidence = 1.0`, which exceeds the claimed
`0.95` bound. -/
theorem final_confidence_bound_cex :
    (validateEmotionAuthenticity happy 1 happy 1).final_confidence = 1 ∧
    ¬ ((validateEmotionAuthenticity happy 1 happy 1).final_confidence ≤ 0.95) := by
  norm_num [validateEmotionAuthenticity, emotionCompatibility]

/-! ## C2: low-compatibility face dominance -/

/-- C2: whenever `compatibility(face, text) < 0.4`, the validation result
keeps the face emotion, is marked inauthentic, carries confidence
`face_confidence * 0.7`, and its explanation names both emotions. -/
theorem low_compatibility_face_dominance (fe te : Emotion) (fc tc : ℚ)
    (h : emotionCompatibility fe te < 0.4) :
    (validateEmotionAuthenticity fe fc te tc).final_emotion = fe ∧
    (validateEmotionAuthenticity fe fc te tc).is_authentic = false ∧
    (validateEmotionAuthenticity fe fc te tc).final_confidence = fc * 0.7 ∧
    ∃ s₁ s₂ s₃, (validateEmotionAuthenticity fe fc te tc).explanation =
      s₁ ++ emotionName fe ++ s₂ ++ emotionName te ++ s₃ := by
  have h1 : ¬ ((0.7:ℚ) ≤ emotionCompatibility fe te) := fun hle =>
    absurd h (not_lt.mpr (le_trans (by norm_num) hle))
  have h2 : ¬ ((0.4:ℚ) ≤ emotionCompatibility fe te) := not_le.mpr h
  simp only [validateEmotionAuthenticity]
  rw [if_neg h1, if_neg h2]
  exact ⟨rfl, rfl, rfl, "POTENTIAL FAKE: Face shows ", " but text suggests ",
    ". Facial expression has priority.", rfl⟩

/-- C2, witness: face = (happy, 0.9), text = (angry, 0.9) has compatibility
0.0 < 0.4, so the face emotion wins with confidence 0.9 * 0.7 and the
result is flagged as not authentic. -/
theorem low_compatibility_face_dominance_witness :
    (validateEmotionAuthenticity happy 0.9 angry 0.9).final_emotion = happy ∧
    (validateEmotionAuthenticity happy 0.9 angry 0.9).is_authentic = false ∧
    (validateEmotionAuthenticity happy 0.9 angry 0.9).final_confidence = 0.9 * 0.7 ∧
    ∃ s₁ s₂ s₃, (validateEmotionAuthenticity happy 0.9 angry 0.9).explanation =
      s₁ ++ emotionName happy ++ s₂ ++ emotionName angry ++ s₃ :=
  low_compatibility_face_dominance happy angry 0.9 0.9
    (by norm_num [emotionCompatibility])

/-! ## C3: high-compatibility weighting -/

/-- C3, counterexample: for face = (happy, 0.8), text = (surprise, 0.5) the
compatibility is 0.7 (≥ 0.7), but the code returns
`0.8*0.8 + 0.5*0.2*0.7 = 0.71`, not the claimed `0.8*0.8 + 0.5*0.2 = 0.74`:
the text term is additionally scaled by the compatibility score. -/
theorem high_compatibility_weighting_cex :
    (0.7:ℚ) ≤ emotionCompatibility happy surprise ∧
    (validateEmotionAuthenticity happy 0.8 surprise 0.5).final_confidence = 0.71 ∧
    (validateEmotionAuthenticity happy 0.8 surprise 0.5).final_confidence ≠
      0.8 * 0.8 + 0.5 * 0.2 := by
  norm_num [validateEmotionAuthenticity, emotionCompatibility]

/-- C3, amended: for `compatibility >= 0.7` the result keeps the face
emotion, is authentic, and has
`final_confidence = face_confidence * 0.8 + text_confidence * 0.2 * compatibility`
(the text term is scaled by the compatibility score; for identical
emotions, where compatibility = 1.0, this reduces to the plain 0.8/0.2
weighting). -/
theorem high_compatibility_fusion (fe te : Emotion) (fc tc : ℚ)
    (h : 0.7 ≤ emotionCompatibility fe te) :
    (validateEmotionAuthenticity fe fc te tc).final_emotion = fe ∧
    (validateEmotionAuthenticity fe fc te tc).is_authentic = true ∧
    (validateEmotionAuthenticity fe fc te tc).final_confidence =
      fc * 0.8 + tc * 0.2 * emotionCompatibility fe te := by
  simp only [validateEmotionAuthenticity]
  rw [if_pos h]
  exact ⟨rfl, rfl, rfl⟩

/-- C3, witness: the amended statement evaluated at face = (happy, 0.8),
text = (surprise, 0.5). -/
theorem high_compatibility_fusion_witness :
    (validateEmotionAuthenticity happy 0.8 surprise 0.5).final_emotion = happy ∧
    (validateEmotionAuthenticity happy 0.8 surprise 0.5).is_authentic = true ∧
    (validateEmotionAuthenticity happy 0.8 surprise 0.5).final_confidence =
      0.8 * 0.8 + 0.5 * 0.2 * emotionCompatibility happy surprise :=
  high_compatibility_fusion happy surprise 0.8 0.5
    (by norm_num [emotionCompatibility])

/-! ## C4: moderate-compatibility fusion -/

/-- C4: for `0.4 <= compatibility < 0.7` the result follows the modality
with the strictly higher raw confidence, has confidence
`max(face_confidence, text_confidence) * 0.8`, and is authentic. -/
theorem moderate_compatibility_fusion (fe te : Emotion) (fc tc : ℚ)
    (h1 : 0.4 ≤ emotionCompatibility fe te)
    (h2 : emotionCompatibility fe te < 0.7) :
    (tc < fc → (validateEmotionAuthenticity fe fc te tc).final_emotion = fe) ∧
    (fc < tc → (validateEmotionAuthenticity fe fc te tc).final_emotion = te) ∧
    (validateEmotionAuthenticity fe fc te tc).final_confidence = max fc tc * 0.8 ∧
    (validateEmotionAuthenticity fe fc te tc).is_authentic = true := by
  have hn : ¬ ((0.7:ℚ) ≤ emotionCompatibility fe te) := not_le.mpr h2
  simp only [validateEmotionAuthenticity]
  rw [if_neg hn, if_pos h1]
  refine ⟨fun hlt => ?_, fun hlt => ?_, rfl, rfl⟩
  · show (if tc < fc then fe else te) = fe
    rw [if_pos hlt]
  · show (if tc < fc then fe else te) = te
    rw [if_neg (not_lt.mpr (le_of_lt hlt))]

/-- C4, witness: face = (happy, 0.9), text = (neutral, 0.4) has
compatibility 0.5, so the face emotion (higher confidence) wins with
confidence `max 0.9 0.4 * 0.8`. -/
theorem moderate_compatibility_fusion_witness :
    (validateEmotionAuthenticity happy 0.9 neutral 0.4).final_emotion = happy ∧
    (validateEmotionAuthenticity happy 0.9 neutral 0.4).final_confidence =
      max 0.9 0.4 * 0.8 ∧
    (validateEmotionAuthenticity happy 0.9 neutral 0.4).is_authentic = true := by
  have h := moderate_compatibility_fusion happy neutral 0.9 0.4
    (by norm_num [emotionCompatibility]) (by norm_num [emotionCompatibility])
  exact ⟨h.1 (by norm_num), h.2.2.1, h.2.2.2⟩

/-! ## C5: text-only fusion -/

/-- C5: with a text estimate and no face estimate, the combined result
keeps the text emotion, multiplies its confidence by the fixed penalty
0.8 (within the specified 0.7–0.8 range), and is authentic exactly when
the raw text confidence exceeds 0.7 and the emotion is not neutral; in
particular text = (neutral, 0.6) is not authentic. -/
theorem text_only_fusion (useAdvanced : Bool) (cons : Option ConsensusResult)
    (t : EmotionResult) :
    (combineAndValidateEmotions useAdvanced cons none (some t)).final_emotion =
      t.emotion ∧
    (combineAndValidateEmotions useAdvanced cons none (some t)).final_confidence =
      t.confidence * 0.8 ∧
    ((combineAndValidateEmotions useAdvanced cons none (some t)).is_authentic = true ↔
      (0.7 < t.confidence ∧ t.emotion ≠ neutral)) ∧
    (combineAndValidateEmotions useAdvanced cons none
      (some ⟨neutral, 0.6, 0⟩)).is_authentic = false := by
  refine ⟨rfl, rfl, ?_, ?_⟩
  · simp [combineAndValidateEmotions]
  · simp [combineAndValidateEmotions]

/-! ## C8: defaulting with no inputs -/

/-- C8: with neither a face estimate nor a text estimate the combination
still returns a well-formed result: neutral emotion, confidence 0.5, not
authentic (the embedding is a total function, so no exception can be
raised). -/
theorem no_input_default_result (useAdvanced : Bool)
    (cons : Option ConsensusResult) :
    combineAndValidateEmotions useAdvanced cons none none =
      { final_emotion := neutral
        final_confidence := 0.5
        face_emotion := none
        text_emotion := none
        audio_emotion := none
        consistency_score := 0.0
        is_authentic := false
        explanation := "No face or text data available" } := rfl

/-! ## C10: `stop_face_tracking` attribute shadowing -/

/-- C10: after `__init__`, the instance attribute `stop_face_tracking` is
the `threading.Event`, shadowing the class method of the same name, so
`cleanup()` — which calls `self.stop_face_tracking()` — raises a
`TypeError` instead of stopping face tracking. -/
theorem stop_face_tracking_shadowing :
    recognizerClassAttr "stop_face_tracking" =
      some (PyAttr.boundMethod "stop_face_tracking") ∧
    getattrRecognizer "stop_face_tracking" = some (PyAttr.event false) ∧
    runCleanup = Except.error "TypeError: 'Event' object is not callable" :=
  ⟨rfl, rfl, rfl⟩

/-! ## C9: valence-based fallback compatibility -/

/-- C9: the valence-based fallback score satisfies: identical emotions
score 1.0; distinct emotions of the same non-neutral valence score 0.7;
distinct pairs with a neutral side score 0.5; opposite-valence pairs
score 0.2.  (The confidence arguments are irrelevant, as in the code.) -/
theorem valence_fallback_compatibility (e₁ e₂ : Emotion) (c₁ c₂ : ℚ) :
    (e₁ = e₂ → calculateConsistencyScore e₁ e₂ c₁ c₂ = 1.0) ∧
    (e₁ ≠ e₂ →
      ((e₁ ∈ positiveEmotions ∧ e₂ ∈ positiveEmotions) ∨
       (e₁ ∈ negativeEmotions ∧ e₂ ∈ negativeEmotions)) →
      calculateConsistencyScore e₁ e₂ c₁ c₂ = 0.7) ∧
    (e₁ ≠ e₂ → (e₁ = neutral ∨ e₂ = neutral) →
      calculateConsistencyScore e₁ e₂ c₁ c₂ = 0.5) ∧
    (((e₁ ∈ positiveEmotions ∧ e₂ ∈ negativeEmotions) ∨
      (e₁ ∈ negativeEmotions ∧ e₂ ∈ positiveEmotions)) →
      calculateConsistencyScore e₁ e₂ c₁ c₂ = 0.2) := by
  cases e₁ <;> cases e₂ <;>
    simp [calculateConsistencyScore, emotionValence, positiveEmotions,
      negativeEmotions]

/-- C9, witness: one concrete pair from each score class. -/
theorem valence_fallback_compatibility_witness :
    calculateConsistencyScore happy happy 0.5 0.5 = 1.0 ∧
    calculateConsistencyScore happy surprise 0.5 0.5 = 0.7 ∧
    calculateConsistencyScore sad fear 0.5 0.5 = 0.7 ∧
    calculateConsistencyScore neutral sad 0.5 0.5 = 0.5 ∧
    calculateConsistencyScore happy sad 0.5 0.5 = 0.2 :=
  ⟨(valence_fallback_compatibility happy happy 0.5 0.5).1 rfl,
   (valence_fallback_compatibility happy surprise 0.5 0.5).2.1 (by decide)
     (Or.inl ⟨by decide, by decide⟩),
   (valence_fallback_compatibility sad fear 0.5 0.5).2.1 (by decide)
     (Or.inr ⟨by decide, by decide⟩),
   (valence_fallback_compatibility neutral sad 0.5 0.5).2.2.1 (by decide)
     (Or.inl rfl),
   (valence_fallback_compatibility happy sad 0.5 0.5).2.2.2
     (Or.inl ⟨by decide, by decide⟩)⟩

/-! ## C7: bounded FIFO face-history buffer -/

/-- Folding `recordFace` from a buffer of at most `maxHistory` entries
always yields the suffix of the inputs that fits the capacity. -/
lemma recordFace_foldl (xs : List EmotionResult) :
    ∀ buf : List EmotionResult, buf.length ≤ maxHistory →
      xs.foldl recordFace buf =
        (buf ++ xs).drop ((buf ++ xs).length - maxHistory) := by
  induction xs with
  | nil =>
      intro buf hb
      have h0 : buf.length - maxHistory = 0 := Nat.sub_eq_zero_of_le hb
      simp [h0]
  | cons x xs ih =>
      intro buf hb
      simp only [List.foldl_cons]
      by_cases h : buf.length < maxHistory
      · have hstep : recordFace buf x = buf ++ [x] := by
          unfold recordFace; rw [if_pos h]
        rw [hstep, ih (buf ++ [x]) (by simp [maxHistory] at h ⊢; omega)]
        simp [List.append_assoc]
      · have hlen : buf.length = maxHistory := le_antisymm hb (le_of_not_lt h)
        have hstep : recordFace buf x = buf.drop 1 ++ [x] := by
          unfold recordFace; rw [if_neg h]
        rw [hstep, ih (buf.drop 1 ++ [x])
          (by simp [maxHistory] at hlen ⊢; omega)]
        have hge : 1 ≤ buf.length := by
          rw [hlen]; norm_num [maxHistory]
        have hsplit : buf.drop 1 ++ [x] ++ xs = (buf ++ x :: xs).drop 1 := by
          rw [List.drop_append_eq_append_drop, Nat.sub_eq_zero_of_le hge]
          simp [List.append_assoc]
        rw [hsplit, List.drop_drop]
        congr 1
        simp only [List.length_append, List.length_drop, List.length_cons,
          hlen, maxHistory]
        omega

/-- C7: recording face estimates always succeeds (the operation is a
total function) and the buffer built from any insertion sequence is the
most recent `maxHistory`-suffix of the inputs; in particular it never
exceeds `maxHistory = 10` entries, and inserting `maxHistory + 1`
estimates leaves exactly `maxHistory` entries with the oldest (first)
evicted. -/
theorem face_history_fifo_bound (xs : List EmotionResult) :
    xs.foldl recordFace [] = xs.drop (xs.length - maxHistory) ∧
    (xs.foldl recordFace []).length ≤ maxHistory ∧
    (xs.length = maxHistory + 1 →
      (xs.foldl recordFace []).length = maxHistory ∧
      xs.foldl recordFace [] = xs.drop 1) := by
  have h := recordFace_foldl xs [] (by simp)
  simp only [List.nil_append] at h
  refine ⟨h, ?_, ?_⟩
  · rw [h, List.length_drop]
    simp only [maxHistory]
    omega
  · intro h11
    constructor
    · rw [h, List.length_drop, h11]
      simp only [maxHistory]
    · rw [h, h11, Nat.add_sub_cancel_left]

/-- Eleven face estimates with distinct timestamps, used to witness the
buffer eviction behaviour. -/
def elevenEstimates : List EmotionResult :=
  (List.range 11).map
    (fun (i : ℕ) => { emotion := happy, confidence := 0.8, timestamp := (i : ℚ) })

/-- C7, witness: eleven distinct estimates inserted into an empty buffer
leave exactly ten entries, the first one evicted. -/
theorem face_history_fifo_bound_witness :
    (elevenEstimates.foldl recordFace []).length = maxHistory ∧
    elevenEstimates.foldl recordFace [] = elevenEstimates.drop 1 :=
  (face_history_fifo_bound elevenEstimates).2.2
    (by rw [elevenEstimates, List.length_map, List.length_range]; rfl)

/-! ## C6: face-emotion consensus -/

/-- Anything already in the accumulator stays in the key fold. -/
lemma mem_keys_foldl_of_mem_acc (l : List EmotionResult) :
    ∀ (acc : List Emotion) (a : Emotion), a ∈ acc →
      a ∈ l.foldl
        (fun ks e => if e.emotion ∈ ks then ks else ks ++ [e.emotion]) acc := by
  induction l with
  | nil => intro acc a ha; simpa using ha
  | cons x l ih =>
      intro acc a ha
      simp only [List.foldl_cons]
      apply ih
      by_cases hx : x.emotion ∈ acc
      · rw [if_pos hx]; exact ha
      · rw [if_neg hx]; exact List.mem_append_left _ ha

/-- The emotion of every list entry appears in the key fold. -/
lemma emotion_mem_keys_foldl (l : List EmotionResult) :
    ∀ (acc : List Emotion) (x : EmotionResult), x ∈ l →
      x.emotion ∈ l.foldl
        (fun ks e => if e.emotion ∈ ks then ks else ks ++ [e.emotion]) acc := by
  induction l with
  | nil => intro acc x hx; simp at hx
  | cons y l ih =>
      intro acc x hx
      simp only [List.foldl_cons]
      rcases List.mem_cons.mp hx with heq | hx'
      · subst heq
        apply mem_keys_foldl_of_mem_acc
        by_cases hy : x.emotion ∈ acc
        · rw [if_pos hy]; exact hy
        · rw [if_neg hy]
          exact List.mem_append_right _ (List.mem_singleton.mpr rfl)
      · exact ih _ x hx'

/-- The emotion of every entry appears among the keys. -/
lemma emotion_mem_emotionKeys {l : List EmotionResult} {x : EmotionResult}
    (hx : x ∈ l) : x.emotion ∈ emotionKeys l :=
  emotion_mem_keys_foldl l [] x hx

/-- The key list is empty exactly for the empty entry list. -/
lemma emotionKeys_eq_nil {l : List EmotionResult} :
    emotionKeys l = [] ↔ l = [] := by
  constructor
  · intro h
    cases l with
    | nil => rfl
    | cons x l =>
        exfalso
        have hm := emotion_mem_emotionKeys (List.mem_cons_self x l)
        rw [h] at hm
        exact List.not_mem_nil _ hm
  · intro h; subst h; rfl

/-- The strict-improvement scan keeps an element whose count dominates
the seed and every scanned key. -/
lemma foldl_pick_le (cnt : Emotion → ℕ) :
    ∀ (ks : List Emotion) (b : Emotion),
      cnt b ≤ cnt (ks.foldl (fun best e => if cnt best < cnt e then e else best) b) ∧
      ∀ k ∈ ks,
        cnt k ≤ cnt (ks.foldl (fun best e => if cnt best < cnt e then e else best) b) := by
  intro ks
  induction ks with
  | nil => intro b; exact ⟨le_refl _, by intro k hk; simp at hk⟩
  | cons e ks ih =>
      intro b
      simp only [List.foldl_cons]
      by_cases h : cnt b < cnt e
      · rw [if_pos h]
        refine ⟨le_trans (le_of_lt h) (ih e).1, ?_⟩
        intro k hk
        rcases List.mem_cons.mp hk with heq | hk'
        · subst heq; exact (ih _).1
        · exact (ih e).2 k hk'
      · rw [if_neg h]
        refine ⟨(ih b).1, ?_⟩
        intro k hk
        rcases List.mem_cons.mp hk with heq | hk'
        · subst heq; exact le_trans (le_of_not_lt h) (ih b).1
        · exact (ih b).2 k hk'

/-- The consensus pick is `none` exactly on the empty list. -/
lemma pickConsensusEmotion_eq_none {l : List EmotionResult} :
    pickConsensusEmotion l = none ↔ l = [] := by
  unfold pickConsensusEmotion
  rcases hk : emotionKeys l with _ | ⟨k, ks⟩
  · have hl : l = [] := emotionKeys_eq_nil.mp hk
    subst hl
    simp
  · have hl : l ≠ [] := by
      intro h0
      subst h0
      simp [emotionKeys] at hk
    simp [hl]

/-- The picked consensus emotion has a maximal count. -/
lemma pickConsensusEmotion_spec {l : List EmotionResult} {best : Emotion}
    (h : pickConsensusEmotion l = some best) (e : Emotion) :
    countEmotion e l ≤ countEmotion best l := by
  unfold pickConsensusEmotion at h
  rcases hk : emotionKeys l with _ | ⟨k, ks⟩
  · rw [hk] at h; simp at h
  · rw [hk] at h
    simp only [Option.some.injEq] at h
    subst h
    rcases Nat.eq_zero_or_pos (countEmotion e l) with h0 | hpos
    · rw [h0]; exact Nat.zero_le _
    · have hx : ∃ x ∈ l, x.emotion = e := by
        unfold countEmotion at hpos
        obtain ⟨x, hxmem⟩ := List.exists_mem_of_length_pos hpos
        have h2 := List.mem_filter.mp hxmem
        exact ⟨x, h2.1, by simpa using h2.2⟩
      obtain ⟨x, hxl, hxe⟩ := hx
      have hmem : e ∈ emotionKeys l := hxe ▸ emotion_mem_emotionKeys hxl
      rw [hk] at hmem
      have hfold := foldl_pick_le (fun a => countEmotion a l) ks k
      rcases List.mem_cons.mp hmem with heq | hks
      · subst heq; exact hfold.1
      · exact hfold.2 e hks

/-- Inversion of a successful consensus computation. -/
lemma getFaceEmotionConsensus_some {now : ℚ} {buffer : List EmotionResult}
    {c : ConsensusResult} (h : getFaceEmotionConsensus now buffer = some c) :
    pickConsensusEmotion (recentEntries now buffer) = some c.emotion ∧
    c.confidence = (((recentEntries now buffer).filter
        (fun x => decide (x.emotion = c.emotion))).map
        (fun x => x.confidence)).sum /
      (countEmotion c.emotion (recentEntries now buffer)) ∧
    c.stability_score =
      (countEmotion c.emotion (recentEntries now buffer) : ℚ) /
        (recentEntries now buffer).length ∧
    c.sample_count = (recentEntries now buffer).length := by
  unfold getFaceEmotionConsensus at h
  by_cases hb : buffer = []
  · rw [if_pos hb] at h; exact absurd h (by simp)
  · rw [if_neg hb] at h
    rcases hp : pickConsensusEmotion (recentEntries now buffer) with _ | best
    · rw [hp] at h; simp at h
    · rw [hp] at h
      simp only [Option.some.injEq] at h
      subst h
      exact ⟨rfl, rfl, rfl, rfl⟩

/-- C6: consensus only considers entries strictly newer than
`now - 10` seconds; it is `None` exactly when no entry is recent;
otherwise it returns an emotion whose frequency among the recent entries
is maximal, the mean confidence of the entries agreeing with it, the
stability score `(agreeing count) / (recent count)`, and the recent
sample count. -/
theorem face_consensus_spec (now : ℚ) (buffer : List EmotionResult) :
    (getFaceEmotionConsensus now buffer = none ↔
      recentEntries now buffer = []) ∧
    ∀ c, getFaceEmotionConsensus now buffer = some c →
      (∀ e : Emotion, countEmotion e (recentEntries now buffer) ≤
        countEmotion c.emotion (recentEntries now buffer)) ∧
      c.confidence = (((recentEntries now buffer).filter
          (fun x => decide (x.emotion = c.emotion))).map
          (fun x => x.confidence)).sum /
        (countEmotion c.emotion (recentEntries now buffer)) ∧
      c.stability_score =
        (countEmotion c.emotion (recentEntries now buffer) : ℚ) /
          (recentEntries now buffer).length ∧
      c.sample_count = (recentEntries now buffer).length := by
  constructor
  · by_cases hb : buffer = []
    · subst hb
      simp [getFaceEmotionConsensus, recentEntries]
    · unfold getFaceEmotionConsensus
      rw [if_neg hb]
      rcases hp : pickConsensusEmotion (recentEntries now buffer) with _ | best
      · simp [pickConsensusEmotion_eq_none.mp hp]
      · have hne : recentEntries now buffer ≠ [] := by
          intro h0
          rw [h0] at hp
          simp [pickConsensusEmotion, emotionKeys] at hp
        simp [hne]
  · intro c hc
    obtain ⟨hp, hconf, hstab, hsamp⟩ := getFaceEmotionConsensus_some hc
    exact ⟨pickConsensusEmotion_spec hp, hconf, hstab, hsamp⟩

/-- Ten identical happy face estimates (confidence 0.8) captured five
seconds before the consensus call at `now = 100`. -/
def tenHappyEstimates : List EmotionResult :=
  List.replicate 10 { emotion := happy, confidence := 0.8, timestamp := 95 }

/-- One fresh sad estimate plus nine happy estimates 20 seconds old. -/
def staleMixEstimates : List EmotionResult :=
  { emotion := sad, confidence := 0.9, timestamp := 95 } ::
    List.replicate 9 { emotion := happy, confidence := 0.8, timestamp := 80 }

/-- C6, witness: ten identical recent (happy, 0.8) entries give consensus
happy with mean confidence 0.8 over 10 samples, and a fresh sad entry
beats nine stale happy entries (sample count 1, stability 1). -/
theorem face_consensus_spec_witness :
    (∀ e : Emotion, countEmotion e (recentEntries 100 tenHappyEstimates) ≤
      countEmotion happy (recentEntries 100 tenHappyEstimates)) ∧
    (0.8:ℚ) = (((recentEntries 100 tenHappyEstimates).filter
        (fun x => decide (x.emotion = happy))).map
        (fun x => x.confidence)).sum /
      (countEmotion happy (recentEntries 100 tenHappyEstimates)) ∧
    (1:ℚ) = (countEmotion sad (recentEntries 100 staleMixEstimates) : ℚ) /
      (recentEntries 100 staleMixEstimates).length ∧
    (1:ℕ) = (recentEntries 100 staleMixEstimates).length := by
  obtain ⟨h1, h2, -, -⟩ := (face_consensus_spec 100 tenHappyEstimates).2
    ⟨happy, 0.8, 1, 10⟩
    (by simp [getFaceEmotionConsensus, tenHappyEstimates, recentEntries,
          pickConsensusEmotion, emotionKeys, countEmotion, List.replicate]
        norm_num)
  obtain ⟨-, -, h3, h4⟩ := (face_consensus_spec 100 staleMixEstimates).2
    ⟨sad, 0.9, 1, 1⟩
    (by simp [getFaceEmotionConsensus, staleMixEstimates, recentEntries,
          pickConsensusEmotion, emotionKeys, countEmotion, List.replicate]
        norm_num)
  exact ⟨h1, h2, h3, h4⟩

/-! ## C1 (continued): bounds of the v2 fusion path -/

/-- All three modality weights are nonnegative in both weighting modes. -/
lemma fusionWeights_nonneg (face text : Option FusionInput) :
    0 ≤ (fusionWeights face text).1 ∧ 0 ≤ (fusionWeights face text).2.1 ∧
    0 ≤ (fusionWeights face text).2.2 := by
  unfold fusionWeights
  rcases face with _ | f
  · norm_num
  · rcases text with _ | t
    · norm_num
    · dsimp only
      split_ifs <;> norm_num

/-- Every fusion entry comes from a present modality and carries one of
the three weights. -/
lemma fusionEntries_sources (face text audio : Option FusionInput)
    (p : ℚ × FusionInput) (hp : p ∈ fusionEntries face text audio) :
    (face = some p.2 ∨ text = some p.2 ∨ audio = some p.2) ∧
    (p.1 = (fusionWeights face text).1 ∨ p.1 = (fusionWeights face text).2.1 ∨
      p.1 = (fusionWeights face text).2.2) := by
  simp only [fusionEntries, List.mem_append] at hp
  rcases hp with (hpf | hpt) | hpa
  · rcases face with _ | f
    · simp at hpf
    · simp only [List.mem_singleton] at hpf
      subst hpf
      exact ⟨Or.inl rfl, Or.inl rfl⟩
  · rcases text with _ | t
    · simp at hpt
    · simp only [List.mem_singleton] at hpt
      subst hpt
      exact ⟨Or.inr (Or.inl rfl), Or.inr (Or.inl rfl)⟩
  · rcases audio with _ | a
    · simp at hpa
    · simp only [List.mem_singleton] at hpa
      subst hpa
      exact ⟨Or.inr (Or.inr rfl), Or.inr (Or.inr rfl)⟩

/-- With nonnegative confidences and accuracies, every fusion entry has a
nonnegative weight, confidence and accuracy. -/
lemma fusionEntries_nonneg (face text audio : Option FusionInput)
    (hf : ∀ r, face = some r → 0 ≤ r.confidence ∧ 0 ≤ r.model_accuracy)
    (ht : ∀ r, text = some r → 0 ≤ r.confidence ∧ 0 ≤ r.model_accuracy)
    (ha : ∀ r, audio = some r → 0 ≤ r.confidence ∧ 0 ≤ r.model_accuracy) :
    ∀ p ∈ fusionEntries face text audio,
      0 ≤ p.1 ∧ 0 ≤ p.2.confidence ∧ 0 ≤ p.2.model_accuracy := by
  intro p hp
  obtain ⟨hsrc, hw⟩ := fusionEntries_sources face text audio p hp
  obtain ⟨hw1, hw2, hw3⟩ := fusionWeights_nonneg face text
  refine ⟨?_, ?_⟩
  · rcases hw with h | h | h <;> rw [h] <;>
      first | exact hw1 | exact hw2 | exact hw3
  · rcases hsrc with h | h | h
    · exact hf p.2 h
    · exact ht p.2 h
    · exact ha p.2 h

/-- The accuracy-adjusted total weight is nonnegative. -/
lemma fusionTotalWeight_nonneg (face text audio : Option FusionInput)
    (hf : ∀ r, face = some r → 0 ≤ r.confidence ∧ 0 ≤ r.model_accuracy)
    (ht : ∀ r, text = some r → 0 ≤ r.confidence ∧ 0 ≤ r.model_accuracy)
    (ha : ∀ r, audio = some r → 0 ≤ r.confidence ∧ 0 ≤ r.model_accuracy) :
    0 ≤ fusionTotalWeight face text audio := by
  unfold fusionTotalWeight
  apply List.sum_nonneg
  intro x hx
  obtain ⟨p, hp, rfl⟩ := List.mem_map.mp hx
  obtain ⟨h1, _, h3⟩ := fusionEntries_nonneg face text audio hf ht ha p hp
  exact mul_nonneg h1 h3

/-- The unnormalized weighted confidence is nonnegative. -/
lemma fusionRawConfidence_nonneg (face text audio : Option FusionInput)
    (hf : ∀ r, face = some r → 0 ≤ r.confidence ∧ 0 ≤ r.model_accuracy)
    (ht : ∀ r, text = some r → 0 ≤ r.confidence ∧ 0 ≤ r.model_accuracy)
    (ha : ∀ r, audio = some r → 0 ≤ r.confidence ∧ 0 ≤ r.model_accuracy) :
    0 ≤ fusionRawConfidence face text audio := by
  unfold fusionRawConfidence
  apply List.sum_nonneg
  intro x hx
  obtain ⟨p, hp, rfl⟩ := List.mem_map.mp hx
  obtain ⟨h1, h2, h3⟩ := fusionEntries_nonneg face text audio hf ht ha p hp
  exact mul_nonneg h2 (mul_nonneg h1 h3)

/-- The normalized weighted confidence is nonnegative. -/
lemma fusionWeightedConfidence_nonneg (face text audio : Option FusionInput)
    (hf : ∀ r, face = some r → 0 ≤ r.confidence ∧ 0 ≤ r.model_accuracy)
    (ht : ∀ r, text = some r → 0 ≤ r.confidence ∧ 0 ≤ r.model_accuracy)
    (ha : ∀ r, audio = some r → 0 ≤ r.confidence ∧ 0 ≤ r.model_accuracy) :
    0 ≤ fusionWeightedConfidence face text audio := by
  unfold fusionWeightedConfidence
  split_ifs with h
  · exact div_nonneg (fusionRawConfidence_nonneg _ _ _ hf ht ha) (le_of_lt h)
  · exact fusionRawConfidence_nonneg _ _ _ hf ht ha

/-- The multimodal confidence boost is positive. -/
lemma fusionBoost_nonneg (face : Option FusionInput) : 0 ≤ fusionBoost face := by
  unfold fusionBoost
  split_ifs <;> norm_num

/-- C1, amended: the `validate_emotion_authenticity` path guarantees only
`final_confidence ∈ [0, 1]` for confidences in `[0, 1]` (it reaches 1.0,
so the claimed `0.95` bound fails there), while the
`_intelligent_multimodal_fusion` path does clamp: its confidence lies in
`[0, 0.94]` (hence within `[0, 0.95]`) whenever the per-modality
confidences and accuracies are nonnegative. -/
theorem final_confidence_bounds :
    (∀ (fe te : Emotion) (fc tc : ℚ), 0 ≤ fc → fc ≤ 1 → 0 ≤ tc → tc ≤ 1 →
      0 ≤ (validateEmotionAuthenticity fe fc te tc).final_confidence ∧
      (validateEmotionAuthenticity fe fc te tc).final_confidence ≤ 1) ∧
    (∀ face text audio : Option FusionInput,
      (∀ r, face = some r → 0 ≤ r.confidence ∧ 0 ≤ r.model_accuracy) →
      (∀ r, text = some r → 0 ≤ r.confidence ∧ 0 ≤ r.model_accuracy) →
      (∀ r, audio = some r → 0 ≤ r.confidence ∧ 0 ≤ r.model_accuracy) →
      0 ≤ (intelligentMultimodalFusion face text audio).confidence ∧
      (intelligentMultimodalFusion face text audio).confidence ≤ 0.94) := by
  constructor
  · exact validate_confidence_in_unit
  · intro face text audio hf ht ha
    constructor
    · show 0 ≤ min (fusionWeightedConfidence face text audio * fusionBoost face) 0.94
      exact le_min
        (mul_nonneg (fusionWeightedConfidence_nonneg _ _ _ hf ht ha)
          (fusionBoost_nonneg _)) (by norm_num)
    · show min (fusionWeightedConfidence face text audio * fusionBoost face) 0.94 ≤ 0.94
      exact min_le_right _ _

/-- C1, witness: the amended bounds evaluated at a concrete
validation call and a concrete face+text fusion call. -/
theorem final_confidence_bounds_witness :
    (0 ≤ (validateEmotionAuthenticity happy 0.5 sad 0.5).final_confidence ∧
      (validateEmotionAuthenticity happy 0.5 sad 0.5).final_confidence ≤ 1) ∧
    (0 ≤ (intelligentMultimodalFusion
        (some ⟨happy, 0.9, fun _ => 1/7, 0.9⟩)
        (some ⟨sad, 0.8, fun _ => 1/7, 0.85⟩) none).confidence ∧
      (intelligentMultimodalFusion
        (some ⟨happy, 0.9, fun _ => 1/7, 0.9⟩)
        (some ⟨sad, 0.8, fun _ => 1/7, 0.85⟩) none).confidence ≤ 0.94) := by
  constructor
  · exact final_confidence_bounds.1 happy sad 0.5 0.5 (by norm_num) (by norm_num)
      (by norm_num) (by norm_num)
  · apply final_confidence_bounds.2
    · intro r hr
      injection hr with h
      subst h
      exact ⟨by norm_num, by norm_num⟩
    · intro r hr
      injection hr with h
      subst h
      exact ⟨by norm_num, by norm_num⟩
    · intro r hr
      cases hr

end Nexaa
